import Mathlib

/-
  Shallow embedding of the quarantine / backup-restore subsystem of the
  macwatchdog-cli repository (src/audit/network_listeners.py,
  src/audit/launch_agents.py, src/audit/login_items.py, src/audit/profiles.py
  and the management flows in src/main.py), together with theorems settling
  the frozen claims about it.

  External effects (subprocess results, file writes, clock) are supplied by
  explicit environment records; the file store is an association list from
  file path to payload, where a write with an existing path replaces the old
  entry (Python open with mode w truncates).
-/

namespace MacWatchdog

/-- Python substring test (the in operator on strings): true when the first
list occurs contiguously inside the second.  Helper for the membership test. -/
def listStartsWith : List Char → List Char → Bool
  | [], _ => true
  | _ :: _, [] => false
  | a :: as, b :: bs => a == b && listStartsWith as bs

/-- Contiguous-sublist test on character lists. -/
def listContains (needle : List Char) : List Char → Bool
  | [] => listStartsWith needle []
  | b :: bs => listStartsWith needle (b :: bs) || listContains needle bs

/-- Python needle in hay on strings. -/
def pyIn (needle hay : String) : Bool :=
  listContains needle.toList hay.toList

/-- Python str.lower, modelled character-wise. -/
def pyLower (s : String) : String :=
  String.mk (s.toList.map Char.toLower)

/-- Python s.split(c) on a character list.  Mirrors str.split with a single
character separator: splitting the empty string yields one empty piece. -/
def splitOnChar (c : Char) : List Char → List (List Char)
  | [] => [[]]
  | a :: t =>
    let r := splitOnChar c t
    if a == c then [] :: r
    else
      match r with
      | [] => [[a]]
      | h :: t2 => (a :: h) :: t2

/-- Python s.split(c)[-1]: the last piece of the split. -/
def pyLastSplit (c : Char) (s : String) : String :=
  match (splitOnChar c s.toList).getLast? with
  | some l => String.mk l
  | none => s

/-- Writing a file: Python open(path, w) truncates an existing file, so a
write with an already-used path replaces the old record. -/
def writeFile {α : Type} (name : String) (data : α)
    (store : List (String × α)) : List (String × α) :=
  store.filter (fun r => !(r.1 == name)) ++ [(name, data)]

/-- Reading a file back from the store by path. -/
def readFile {α : Type} (name : String)
    (store : List (String × α)) : Option α :=
  (store.find? (fun r => r.1 == name)).map Prod.snd

/-- One entry of the listener list built by check_network_listeners in
src/audit/network_listeners.py: process name, port field and pid string. -/
structure Listener where
  process : String
  port : String
  pid : String
  deriving DecidableEq, Repr

/-- Environment for the port-management functions of
src/audit/network_listeners.py.  listeners is the result of the fresh
check_network_listeners call inside backup_port_state; timestamp is
datetime.now().strftime, second resolution; quarantineDir is the path
returned by get_quarantine_dir; writeErr holds the exception text when the
open/json.dump of the backup file raises (none means the write completed);
lsofRc and lsofLines are returncode and whitespace-tokenized stdout lines of
the lsof -i :port call made by close_port_process. -/
structure PortsEnv where
  listeners : List Listener
  timestamp : String
  quarantineDir : String
  writeErr : Option String
  lsofRc : Nat
  lsofLines : List (List String)

/-- Backup file path built in backup_port_state:
get_quarantine_dir() / ports_backup_TIMESTAMP.json. -/
def ports_backup_path (env : PortsEnv) : String :=
  env.quarantineDir ++ "/ports_backup_" ++ env.timestamp ++ ".json"

/-- backup_port_state (src/audit/network_listeners.py lines 43-63): snapshot
the current listener list to a timestamped JSON file.  Returns the Python
(success, message) pair together with the updated file store. -/
def backup_port_state (env : PortsEnv) (store : List (String × List Listener)) :
    (Bool × String) × List (String × List Listener) :=
  if env.listeners.isEmpty then
    ((false, "No open ports to backup"), store)
  else
    match env.writeErr with
    | some e => ((false, e), store)
    | none =>
      ((true, "Successfully backed up port state to " ++ ports_backup_path env
          ++ " (Note: This is a record of port state only, not a process restore point)"),
        writeFile (ports_backup_path env) env.listeners store)

/-- close_port_process (src/audit/network_listeners.py lines 93-119): look up
the port with lsof, take the pid from the second output line (the first is
the header), create a backup, and only then kill the pid.  Returns the
(success, message) pair, the updated file store, and the list of pids that
were sent a termination signal. -/
def close_port_process (port : String) (env : PortsEnv)
    (store : List (String × List Listener)) :
    (Bool × String) × List (String × List Listener) × List String :=
  if env.lsofRc != 0 then
    ((false, "No process found using port " ++ port), store, [])
  else
    match env.lsofLines with
    | [] => ((false, "No process found using port " ++ port), store, [])
    | [_] => ((false, "No process found using port " ++ port), store, [])
    | _ :: second :: _ =>
      match second[1]? with
      | none => ((false, "list index out of range"), store, [])
      | some pid =>
        let r := backup_port_state env store
        if r.1.1 then
          ((true, "Successfully closed port " ++ port ++ " (killed process "
              ++ pid ++ ") (Backup: " ++ r.1.2 ++ ")"), r.2, [pid])
        else
          ((false, "Failed to create backup: " ++ r.1.2), r.2, [])

/-- One entry of a port backup record, as consumed by restore_port_state. -/
structure BackupItem where
  process : String
  port : String
  deriving DecidableEq, Repr

/-- Environment for restore_port_state: pythonPopen port is the outcome of
Popen python3 -m http.server port (none means started, some e the exception
text); which maps a process name to its binary path when the which command
succeeds; popen binary is the outcome of Popen on that binary. -/
structure RestoreEnv where
  pythonPopen : String → Option String
  which : String → Option String
  popen : String → Option String

/-- Body of the restore loop of restore_port_state
(src/audit/network_listeners.py lines 131-180) for one backup entry:
returns (restarted count, failed count, messages) for that entry. -/
def restore_step (env : RestoreEnv) (item : BackupItem) :
    Nat × Nat × List String :=
  let process := item.process
  let port := pyLastSplit ':' item.port
  if pyLower process == "python" then
    match env.pythonPopen port with
    | none => (1, 0, ["Restarted Python HTTP server on port " ++ port])
    | some e =>
      (0, 1, ["Failed to restart Python server on port " ++ port ++ ": " ++ e])
  else if pyLower process == "node" then
    (0, 0, ["Note: Cannot restore Node.js process on port " ++ port
        ++ " without original command"])
  else
    match env.which process with
    | some binary =>
      match env.popen binary with
      | none => (1, 0, ["Restarted " ++ process ++ " on port " ++ port])
      | some e =>
        (0, 1, ["Failed to restart " ++ process ++ " on port " ++ port
            ++ ": " ++ e])
    | none => (0, 1, ["Could not find binary for " ++ process])

/-- The accumulated (success count, fail count, messages) over a whole
backup record, as built by the loop of restore_port_state. -/
def restore_accum (env : RestoreEnv) (backup : List BackupItem) :
    Nat × Nat × List String :=
  backup.foldl
    (fun acc item =>
      let r := restore_step env item
      (acc.1 + r.1, acc.2.1 + r.2.1, acc.2.2 ++ r.2.2))
    (0, 0, [])

/-- Python newline.join on a message list. -/
def joinNL : List String → String
  | [] => ""
  | [m] => m
  | m :: ms => m ++ "\n" ++ joinNL ms

/-- restore_port_state (src/audit/network_listeners.py lines 121-188),
after the backup file has been parsed into a list of entries: runs the
per-entry restore loop and aggregates; declares failure exactly when the
fail count equals the number of entries. -/
def restore_port_state (env : RestoreEnv) (backup : List BackupItem) :
    Bool × String :=
  let r := restore_accum env backup
  if r.2.1 == backup.length then
    (false, joinNL r.2.2)
  else
    (true, "Restored " ++ toString r.1 ++ " processes, " ++ toString r.2.1
        ++ " failed:\n" ++ joinNL r.2.2)

/-- One file of a launch agent/daemon directory as seen by
src/audit/launch_agents.py: its bare name, the os.access result for the
write bit, the st_mode from os.stat, and the outcome of the codesign run
(whether it raised, and its stderr text). -/
structure AgentFile where
  name : String
  accessW : Bool
  mode : Nat
  codesignExc : Bool
  codesignStderr : String
  deriving DecidableEq, Repr

/-- Keyword denylist of check_launch_agents (line 23). -/
def agent_keywords : List String :=
  ["remote", "mdm", "backdoor", "rat", "suspicious", "hack", "keylog", "spy"]

/-- The keyword signal: some denylist keyword occurs in the lowercased
filename (line 29). -/
def kwMatch (f : AgentFile) : Bool :=
  agent_keywords.any (fun k => pyIn k (pyLower f.name))

/-- is_world_writable (lines 4-6): os.access write bit and the last octal
digit of st_mode is 2, 6 or 7 (the last octal digit equals mode mod 8). -/
def is_world_writable (f : AgentFile) : Bool :=
  f.accessW && (f.mode % 8 == 2 || f.mode % 8 == 6 || f.mode % 8 == 7)

/-- is_unsigned (lines 8-14): the codesign stderr holds the not-signed
phrase; any exception makes the function return False. -/
def is_unsigned (f : AgentFile) : Bool :=
  if f.codesignExc then false
  else pyIn "code object is not signed" f.codesignStderr

/-- The annotation the if/elif chain of check_launch_agents (lines 29-34)
attaches to a flagged file, none when no signal fires. -/
def agent_tag (f : AgentFile) : Option String :=
  if kwMatch f then some " (keyword)"
  else if is_world_writable f then some " (world-writable)"
  else if is_unsigned f then some " (unsigned)"
  else none

/-- Which probes the elif chain actually evaluates for a file: (permission
test ran, codesign ran).  The keyword test is pure string work on the
listing; the permission test runs os.access/os.stat only when the keyword
test failed; codesign runs only when both earlier tests failed. -/
def agent_probes (f : AgentFile) : Bool × Bool :=
  if kwMatch f then (false, false)
  else if is_world_writable f then (true, false)
  else (true, true)

/-- The directory scan loop of check_launch_agents (lines 26-34) over one
directory listing: appends full_path plus annotation per the if/elif chain. -/
def scan_dir (path : String) : List AgentFile → List String
  | [] => []
  | f :: fs =>
    let full := path ++ "/" ++ f.name
    if kwMatch f then (full ++ " (keyword)") :: scan_dir path fs
    else if is_world_writable f then (full ++ " (world-writable)") :: scan_dir path fs
    else if is_unsigned f then (full ++ " (unsigned)") :: scan_dir path fs
    else scan_dir path fs

/-- check_launch_agents (lines 16-41) over an environment listing the fixed
paths with their existence flag and directory contents: the suspicious list
and the resulting status string. -/
def check_launch_agents (env : List (String × Bool × List AgentFile)) :
    List String × String :=
  let suspicious := env.foldl
    (fun acc e => if e.2.1 then acc ++ scan_dir e.1 e.2.2 else acc) []
  (suspicious, if suspicious.isEmpty then "OK" else "ALERT")

/-- Python os.path basename via the last slash-separated piece, which is the
name a file keeps when shutil.move places it inside a directory. -/
def basename (p : String) : String :=
  pyLastSplit '/' p

/-- Backup folder created by quarantine_agents (src/main.py lines 225-229):
QUARANTINE_DIR / backup_TIMESTAMP. -/
def quarantine_backup_dir (root ts : String) : String :=
  root ++ "/backup_" ++ ts

/-- Path of a file after quarantine_agents moved it into the backup folder
(src/main.py line 232): shutil.move(file_path, backup_dir) keeps only the
base name of the original path. -/
def quarantined_path (backupDir original : String) : String :=
  backupDir ++ "/" ++ basename original

/-- Destination heuristic of restore_agents (src/main.py line 241, and the
same expression at line 553): LaunchAgents when the substring occurs in the
backed-up path, else LaunchDaemons. -/
def restore_dest (p : String) : String :=
  if pyIn "LaunchAgents" p then "/Library/LaunchAgents"
  else "/Library/LaunchDaemons"

/-- One parsed configuration profile as built by parse_profiles
(src/audit/profiles.py lines 5-40) and consumed by profile_mdm_menu. -/
structure Profile where
  profileIdentifier : Option String
  profileDisplayName : Option String
  mdm : Bool
  removable : Bool
  risk : List String
  deriving DecidableEq, Repr

/-- Removable detection of parse_profiles (lines 34-38): a profile is not
removable exactly when the PayloadRemovalDisallowed value, lowercased, is
yes, true or 1. -/
def removable_of (prd : Option String) : Bool :=
  match prd with
  | some v =>
    !(pyLower v == "yes" || pyLower v == "true" || pyLower v == "1")
  | none => true

/-- The remove branch of profile_mdm_menu (src/main.py lines 653-679), after
the index string parsed as a number: the list of identifiers for which
remove_profile, and hence the external profiles remove command, is invoked.
A locked profile makes the menu return before the confirmation prompt. -/
def profile_remove_invocations (profiles : List Profile) (idx : Nat)
    (confirm : Bool) : List (Option String) :=
  if 1 ≤ idx ∧ idx ≤ profiles.length then
    match profiles[idx - 1]? with
    | some p =>
      if !p.removable then []
      else if confirm then [p.profileIdentifier]
      else []
    | none => []
  else []

/-- Identifier contributed by a profile to a snapshot comparison
(src/main.py lines 770-771): the set comprehension keeps
p.get(profileIdentifier) only when it is truthy, so a missing identifier and
an empty one are both excluded. -/
def truthy_id (p : Profile) : Option String :=
  match p.profileIdentifier with
  | some s => if s == "" then none else some s
  | none => none

/-- The identifier set of one snapshot side. -/
def prof_ids (ps : List Profile) : Finset String :=
  (ps.filterMap truthy_id).toFinset

/-- Snapshot comparison of forensics_menu (src/main.py lines 770-773):
added is the second set minus the first, removed the first minus the
second. -/
def snapshot_diff (s1 s2 : List Profile) : Finset String × Finset String :=
  (prof_ids s2 \ prof_ids s1, prof_ids s1 \ prof_ids s2)

/-- A login item as built by get_login_items
(src/audit/login_items.py lines 37-47). -/
structure LoginItem where
  name : String
  path : Option String
  kind : String
  hidden : Bool
  deriving DecidableEq, Repr

/-- Environment for remove_login_item: the current item list from
get_login_items, whether get_quarantine_dir returned a directory, its path,
the timestamp, the outcome of writing the backup JSON (some e when the write
raised), and returncode and stderr of the osascript delete call. -/
structure LoginEnv where
  items : List LoginItem
  quarantineDirOk : Bool
  quarantineDir : String
  timestamp : String
  writeErr : Option String
  deleteRc : Nat
  deleteStderr : String

/-- Backup file path built in remove_login_item (line 94). -/
def login_backup_path (env : LoginEnv) : String :=
  env.quarantineDir ++ "/login_item_backup_" ++ env.timestamp ++ ".json"

/-- remove_login_item (src/audit/login_items.py lines 79-109): find the item
by name, back it up to the quarantine store, then delete it through
osascript.  Returns the (success, message) pair, the updated file store, and
the list of names for which the osascript delete command was invoked. -/
def remove_login_item (name : String) (env : LoginEnv)
    (store : List (String × LoginItem)) :
    (Bool × String) × List (String × LoginItem) × List String :=
  match env.items.find? (fun i => i.name == name) with
  | none => ((false, "Login item not found: " ++ name), store, [])
  | some item =>
    if !env.quarantineDirOk then
      ((false, "Failed to create quarantine directory"), store, [])
    else
      match env.writeErr with
      | some e => ((false, e), store, [])
      | none =>
        let store' := writeFile (login_backup_path env) item store
        if env.deleteRc = 0 then
          ((true, "Successfully removed login item: " ++ name
              ++ " (Backup: " ++ login_backup_path env ++ ")"), store', [name])
        else
          ((false, "Failed to remove login item: " ++ env.deleteStderr),
            store', [name])

lemma readFile_writeFile {α : Type} (n : String) (d : α)
    (s : List (String × α)) : readFile n (writeFile n d s) = some d := by
  induction s with
  | nil => simp [readFile, writeFile, List.find?]
  | cons a t _ =>
    by_cases h : a.1 == n
    · simp [readFile, writeFile, List.filter_cons, h]
    · simp only [Bool.not_eq_true] at h
      simp [readFile, writeFile, List.filter_cons, List.find?_cons, h]

lemma writeFile_count {α : Type} (n : String) (d : α)
    (s : List (String × α)) :
    ((writeFile n d s).filter (fun r => r.1 == n)).length = 1 := by
  have hleft : (s.filter (fun r => !(r.1 == n))).filter (fun r => r.1 == n)
      = [] := by
    rw [List.filter_filter]
    simp
  simp [writeFile, List.filter_append, hleft]

/-- C1: when the automatic backup of the listener state fails,
close_port_process returns failure and no termination signal is sent; a kill
is issued only when the backup succeeded, in which case the backup record is
readable in the store close_port_process leaves behind. -/
theorem claim_c1 :
    ∀ (port : String) (env : PortsEnv) (store : List (String × List Listener)),
    ((backup_port_state env store).1.1 = false →
      (close_port_process port env store).1.1 = false ∧
      (close_port_process port env store).2.2 = []) ∧
    (∀ pid ∈ (close_port_process port env store).2.2,
      (backup_port_state env store).1.1 = true ∧
      readFile (ports_backup_path env) (close_port_process port env store).2.1
        = some env.listeners) := by
  intro port env store
  have hread : (backup_port_state env store).1.1 = true →
      readFile (ports_backup_path env) (backup_port_state env store).2
        = some env.listeners := by
    intro h
    by_cases he : env.listeners.isEmpty
    · simp [backup_port_state, he] at h
    · cases hw : env.writeErr with
      | some e => simp [backup_port_state, he, hw] at h
      | none => simp [backup_port_state, he, hw, readFile_writeFile]
  by_cases hrc : env.lsofRc != 0
  · constructor
    · intro _
      simp [close_port_process, hrc]
    · intro pid hm
      simp [close_port_process, hrc] at hm
  · rcases hl : env.lsofLines with _ | ⟨l0, tl⟩
    · constructor
      · intro _
        simp [close_port_process, hrc, hl]
      · intro pid hm
        simp [close_port_process, hrc, hl] at hm
    · rcases tl with _ | ⟨l1, rest⟩
      · constructor
        · intro _
          simp [close_port_process, hrc, hl]
        · intro pid hm
          simp [close_port_process, hrc, hl] at hm
      · cases hg : l1[1]? with
        | none =>
          constructor
          · intro _
            simp [close_port_process, hrc, hl, hg]
          · intro pid hm
            simp [close_port_process, hrc, hl, hg] at hm
        | some pid0 =>
          cases hb : (backup_port_state env store).1.1 with
          | false =>
            constructor
            · intro _
              simp [close_port_process, hrc, hl, hg, hb]
            · intro pid hm
              simp [close_port_process, hrc, hl, hg, hb] at hm
          | true =>
            constructor
            · intro h
              exact absurd h (by simp)
            · intro pid hm
              refine ⟨rfl, ?_⟩
              have h2 : (close_port_process port env store).2.1
                  = (backup_port_state env store).2 := by
                simp [close_port_process, hrc, hl, hg, hb]
              rw [h2]
              exact hread hb

/-- C10: close_port_process signals at most one pid per call, and when the
lookup succeeds it signals exactly the pid token of the first non-header
line of the fresh lsof output; every other process bound to the port is
left unsignaled by that call. -/
theorem claim_c10 :
    ∀ (port : String) (env : PortsEnv) (store : List (String × List Listener)),
    (close_port_process port env store).2.2.length ≤ 1 ∧
    (∀ (l0 l1 : List String) (rest : List (List String)) (pid : String),
      env.lsofRc = 0 → env.lsofLines = l0 :: l1 :: rest →
      l1[1]? = some pid → (backup_port_state env store).1.1 = true →
      (close_port_process port env store).2.2 = [pid]) := by
  intro port env store
  constructor
  · by_cases hrc : env.lsofRc != 0
    · simp [close_port_process, hrc]
    · rcases hl : env.lsofLines with _ | ⟨l0, tl⟩
      · simp [close_port_process, hrc, hl]
      · rcases tl with _ | ⟨l1, rest⟩
        · simp [close_port_process, hrc, hl]
        · cases hg : l1[1]? with
          | none => simp [close_port_process, hrc, hl, hg]
          | some pid0 =>
            cases hb : (backup_port_state env store).1.1 with
            | false => simp [close_port_process, hrc, hl, hg, hb]
            | true => simp [close_port_process, hrc, hl, hg, hb]
  · intro l0 l1 rest pid hrc hl hg hb
    have hrc2 : (env.lsofRc != 0) = false := by simp [hrc]
    simp [close_port_process, hrc2, hl, hg, hb]

/-- Concrete port environment in which the backup write fails. -/
def envPortFail : PortsEnv :=
  ⟨[⟨"nginx", "*:80", "100"⟩], "20240101_120000", "/app/src/quarantine/ports",
    some "disk full", 0, [["COMMAND", "PID"], ["nginx", "100", "root"]]⟩

/-- Concrete port environment in which the backup write succeeds. -/
def envPortOk : PortsEnv :=
  ⟨[⟨"nginx", "*:80", "100"⟩], "20240101_120000", "/app/src/quarantine/ports",
    none, 0, [["COMMAND", "PID"], ["nginx", "100", "root"]]⟩

/-- Witness for C1 at concrete environments: a failing backup aborts the
close with no kill, and a successful close leaves a readable record. -/
theorem claim_c1_witness :
    ((close_port_process "80" envPortFail []).1.1 = false ∧
      (close_port_process "80" envPortFail []).2.2 = []) ∧
    ((backup_port_state envPortOk []).1.1 = true ∧
      readFile (ports_backup_path envPortOk)
        (close_port_process "80" envPortOk []).2.1 = some envPortOk.listeners) :=
  ⟨(claim_c1 "80" envPortFail []).1 (by decide),
    (claim_c1 "80" envPortOk []).2 "100" (by decide)⟩

/-- Witness for C10 at a concrete environment with a header line and one
process line: exactly the pid of the first non-header line is signaled. -/
theorem claim_c10_witness :
    (close_port_process "80" envPortOk []).2.2 = ["100"] :=
  (claim_c10 "80" envPortOk []).2 ["COMMAND", "PID"] ["nginx", "100", "root"]
    [] "100" rfl rfl (by decide) (by decide)

/-- Restore environment in which every external lookup fails: which finds
no binary and both Popen variants raise nothing relevant. -/
def envRestoreC2 : RestoreEnv :=
  ⟨fun _ => none, fun _ => none, fun _ => none⟩

/-- C2 counterexample: a backup holding a single Node.js entry makes
restore_port_state declare overall success although zero entries were
restored, because the Node branch increments neither counter and failure is
declared only when the fail count equals the entry count. -/
theorem claim_c2_counterexample :
    (restore_port_state envRestoreC2 [⟨"node", "*:8080"⟩]).1 = true ∧
    (restore_accum envRestoreC2 [⟨"node", "*:8080"⟩]).1 = 0 := by
  decide

/-- C2 amended: restore_port_state declares overall success exactly when not
every backed-up entry counted as failed (entries such as Node.js processes
count neither as restored nor as failed, so success can be declared with
zero restores); the per-entry outcome messages are accumulated and returned
joined into the aggregate message on both the success and the failure
path. -/
theorem claim_c2_amended :
    ∀ (env : RestoreEnv) (backup : List BackupItem),
    ((restore_port_state env backup).1 = true ↔
      (restore_accum env backup).2.1 ≠ backup.length) ∧
    ((restore_port_state env backup).1 = true →
      (restore_port_state env backup).2 =
        "Restored " ++ toString (restore_accum env backup).1 ++ " processes, "
          ++ toString (restore_accum env backup).2.1 ++ " failed:\n"
          ++ joinNL (restore_accum env backup).2.2) ∧
    ((restore_port_state env backup).1 = false →
      (restore_port_state env backup).2
        = joinNL (restore_accum env backup).2.2) := by
  intro env backup
  by_cases h : (restore_accum env backup).2.1 = backup.length
  · simp [restore_port_state, h]
  · simp [restore_port_state, h]

/-- Witness for C2 amended at the Node.js example: zero of one entries
failed, so success is declared. -/
theorem claim_c2_witness :
    (restore_port_state envRestoreC2 [⟨"node", "*:8080"⟩]).1 = true :=
  (claim_c2_amended envRestoreC2 [⟨"node", "*:8080"⟩]).1.mpr (by decide)

/-- First same-second port environment for the overwrite scenario. -/
def envC3a : PortsEnv :=
  ⟨[⟨"nginx", "*:80", "100"⟩], "20240101_120000", "/app/src/quarantine/ports",
    none, 0, []⟩

/-- Second same-second port environment for the overwrite scenario. -/
def envC3b : PortsEnv :=
  ⟨[⟨"sshd", "*:22", "200"⟩], "20240101_120000", "/app/src/quarantine/ports",
    none, 0, []⟩

/-- C3 counterexample: two backup writes in the ports category within the
same wall-clock second both report success, yet the store afterwards holds a
single record carrying only the payload of the second write, so the earlier
record did not remain readable: the timestamp filename scheme has one-second
resolution and no disambiguating counter. -/
theorem claim_c3_counterexample :
    (backup_port_state envC3a []).1.1 = true ∧
    (backup_port_state envC3b (backup_port_state envC3a []).2).1.1 = true ∧
    (backup_port_state envC3b (backup_port_state envC3a []).2).2 =
      [("/app/src/quarantine/ports/ports_backup_20240101_120000.json",
        [⟨"sshd", "*:22", "200"⟩])] ∧
    ([⟨"nginx", "*:80", "100"⟩] : List Listener) ≠ [⟨"sshd", "*:22", "200"⟩] := by
  decide

/-- C3 amended: two successful backup writes in the same category within the
same second produce the same record path, so the second write silently
replaces the first: afterwards exactly one record with that path exists and
reading it yields the payload of the second write. -/
theorem claim_c3_amended :
    ∀ (env1 env2 : PortsEnv) (store : List (String × List Listener)),
    env1.timestamp = env2.timestamp → env1.quarantineDir = env2.quarantineDir →
    env1.listeners.isEmpty = false → env2.listeners.isEmpty = false →
    env1.writeErr = none → env2.writeErr = none →
    ports_backup_path env1 = ports_backup_path env2 ∧
    readFile (ports_backup_path env2)
        (backup_port_state env2 (backup_port_state env1 store).2).2
      = some env2.listeners ∧
    ((backup_port_state env2 (backup_port_state env1 store).2).2.filter
        (fun r => r.1 == ports_backup_path env2)).length = 1 := by
  intro env1 env2 store ht hd h1 h2 hw1 hw2
  have hp : ports_backup_path env1 = ports_backup_path env2 := by
    unfold ports_backup_path
    rw [ht, hd]
  refine ⟨hp, ?_, ?_⟩
  · simp [backup_port_state, h1, h2, hw1, hw2, readFile_writeFile]
  · simp [backup_port_state, h1, h2, hw1, hw2, writeFile_count]

/-- Witness for C3 amended at the two concrete same-second environments. -/
theorem claim_c3_witness :
    ports_backup_path envC3a = ports_backup_path envC3b ∧
    readFile (ports_backup_path envC3b)
        (backup_port_state envC3b (backup_port_state envC3a []).2).2
      = some envC3b.listeners ∧
    ((backup_port_state envC3b (backup_port_state envC3a []).2).2.filter
        (fun r => r.1 == ports_backup_path envC3b)).length = 1 :=
  claim_c3_amended envC3a envC3b [] rfl rfl (by decide) (by decide) rfl rfl

/-- C4: a profile whose removable attribute is false is rejected by the
remove branch of the profile menu before the confirmation prompt, so
remove_profile, and with it the external profiles remove command, is never
invoked for it, whatever the user would have answered. -/
theorem claim_c4 :
    ∀ (profiles : List Profile) (idx : Nat) (confirm : Bool) (p : Profile),
    profiles[idx - 1]? = some p → p.removable = false →
    profile_remove_invocations profiles idx confirm = [] := by
  intro profiles idx confirm p hg hrem
  unfold profile_remove_invocations
  by_cases hb : 1 ≤ idx ∧ idx ≤ profiles.length
  · simp [hb, hg, hrem]
  · simp [hb]

/-- Concrete locked profile, with removable computed by the
PayloadRemovalDisallowed rule of parse_profiles. -/
def lockedProfile : Profile :=
  ⟨some "com.corp.mdm", some "Corp MDM", true, removable_of (some "yes"),
    ["Root certificate"]⟩

/-- Witness for C4: a locked profile at index 1 with a confirming user still
produces no remove_profile invocation. -/
theorem claim_c4_witness :
    profile_remove_invocations [lockedProfile] 1 true = [] :=
  claim_c4 [lockedProfile] 1 true lockedProfile (by decide) (by decide)

/-- C5: a file is annotated by check_launch_agents exactly when at least one
of the three signals fires, keyword, world-writable or unsigned, as a plain
disjunction with no scoring; the directory scan emits exactly the annotated
files, and the single-directory check returns that scan as its suspicious
list. -/
theorem claim_c5 :
    (∀ f : AgentFile,
      (agent_tag f).isSome
        = (kwMatch f || is_world_writable f || is_unsigned f)) ∧
    (∀ (path : String) (files : List AgentFile),
      scan_dir path files = files.filterMap
        (fun f => (agent_tag f).map
          (fun a => path ++ "/" ++ f.name ++ a))) ∧
    (∀ (path : String) (files : List AgentFile),
      (check_launch_agents [(path, true, files)]).1 = scan_dir path files) := by
  refine ⟨?_, ?_, ?_⟩
  · intro f
    unfold agent_tag
    by_cases h1 : kwMatch f
    · simp [h1]
    · by_cases h2 : is_world_writable f
      · simp [h1, h2]
      · by_cases h3 : is_unsigned f
        · simp [h1, h2, h3]
        · simp [h1, h2, h3]
  · intro path files
    induction files with
    | nil => simp [scan_dir]
    | cons f fs ih =>
      by_cases h1 : kwMatch f
      · simp [scan_dir, agent_tag, h1, ih]
      · by_cases h2 : is_world_writable f
        · simp [scan_dir, agent_tag, h1, h2, ih]
        · by_cases h3 : is_unsigned f
          · simp [scan_dir, agent_tag, h1, h2, h3, ih]
          · simp [scan_dir, agent_tag, h1, h2, h3, ih]
  · intro path files
    simp [check_launch_agents]

/-- C9: each flagged file carries exactly one annotation, chosen by the
fixed priority keyword, then world-writable, then unsigned, and the elif
chain stops probing once a signal matched: on a keyword hit neither the
permission test nor codesign runs, and on a world-writable hit codesign
never runs. -/
theorem claim_c9 :
    ∀ f : AgentFile,
    (kwMatch f = true →
      agent_tag f = some " (keyword)" ∧
      agent_probes f = (false, false)) ∧
    (kwMatch f = false → is_world_writable f = true →
      agent_tag f = some " (world-writable)" ∧
      agent_probes f = (true, false)) ∧
    (kwMatch f = false → is_world_writable f = false → is_unsigned f = true →
      agent_tag f = some " (unsigned)" ∧
      agent_probes f = (true, true)) := by
  intro f
  refine ⟨?_, ?_, ?_⟩
  · intro h1
    simp [agent_tag, agent_probes, h1]
  · intro h1 h2
    simp [agent_tag, agent_probes, h1, h2]
  · intro h1 h2 h3
    simp [agent_tag, agent_probes, h1, h2, h3]

/-- Concrete agent file whose name matches the remote keyword. -/
def agentKw : AgentFile :=
  ⟨"com.remote.helper.plist", false, 420, false, ""⟩

/-- Concrete world-writable agent file, mode 666, no keyword. -/
def agentWW : AgentFile :=
  ⟨"com.acme.tool.plist", true, 438, false, ""⟩

/-- Concrete unsigned agent file, neither keyword nor world-writable. -/
def agentUnsig : AgentFile :=
  ⟨"com.acme.tool.plist", false, 420, false,
    "com.acme.tool.plist: code object is not signed at all"⟩

/-- Witness for C9 at one concrete file per priority level. -/
theorem claim_c9_witness :
    (agent_tag agentKw = some " (keyword)" ∧
      agent_probes agentKw = (false, false)) ∧
    (agent_tag agentWW = some " (world-writable)" ∧
      agent_probes agentWW = (true, false)) ∧
    (agent_tag agentUnsig = some " (unsigned)" ∧
      agent_probes agentUnsig = (true, true)) :=
  ⟨(claim_c9 agentKw).1 (by decide),
    (claim_c9 agentWW).2.1 (by decide) (by decide),
    (claim_c9 agentUnsig).2.2 (by decide) (by decide) (by decide)⟩

/-- C6 counterexample: a file quarantined from /Library/LaunchAgents lands
at a backup path that no longer holds the LaunchAgents substring, so restore
sends it to /Library/LaunchDaemons, not back to a LaunchAgents directory. -/
theorem claim_c6_counterexample :
    pyIn "LaunchAgents" "/Library/LaunchAgents/com.evil.plist" = true ∧
    quarantined_path
        (quarantine_backup_dir "/Users/admin/macwatchdog/src/quarantine"
          "20240101-000000")
        "/Library/LaunchAgents/com.evil.plist"
      = "/Users/admin/macwatchdog/src/quarantine/backup_20240101-000000/com.evil.plist" ∧
    restore_dest
        (quarantined_path
          (quarantine_backup_dir "/Users/admin/macwatchdog/src/quarantine"
            "20240101-000000")
          "/Library/LaunchAgents/com.evil.plist")
      = "/Library/LaunchDaemons" := by
  decide

/-- C6 amended: restore sends a backed-up file to /Library/LaunchAgents
exactly when the LaunchAgents substring occurs in the backed-up path, and to
/Library/LaunchDaemons exactly otherwise; since quarantining keeps only the
base name under the quarantine folder, origin from a LaunchAgents directory
does not by itself make the file return there. -/
theorem claim_c6_amended :
    ∀ p : String,
    (restore_dest p = "/Library/LaunchAgents" ↔ pyIn "LaunchAgents" p = true) ∧
    (restore_dest p = "/Library/LaunchDaemons" ↔ pyIn "LaunchAgents" p = false) := by
  have hne : ("/Library/LaunchAgents" : String) = "/Library/LaunchDaemons" ↔ False := by
    simp only [iff_false]
    decide
  intro p
  by_cases h : pyIn "LaunchAgents" p = true
  · constructor
    · simp [restore_dest, h]
    · simp [restore_dest, h, hne]
  · have h2 : pyIn "LaunchAgents" p = false := by
      simpa using h
    constructor
    · simp [restore_dest, h2, eq_comm.trans hne]
    · simp [restore_dest, h2]

/-- C7: comparing a snapshot with itself yields empty added and removed
sets; the comparison is a pure set difference over profile identifiers, and
a profile with no identifier contributes nothing to either side. -/
theorem claim_c7 :
    (∀ s : List Profile, snapshot_diff s s = (∅, ∅)) ∧
    (∀ s1 s2 : List Profile, snapshot_diff s1 s2
      = (prof_ids s2 \ prof_ids s1, prof_ids s1 \ prof_ids s2)) ∧
    (∀ (p : Profile) (ps : List Profile), p.profileIdentifier = none →
      prof_ids (p :: ps) = prof_ids ps) := by
  refine ⟨?_, fun s1 s2 => rfl, ?_⟩
  · intro s
    simp [snapshot_diff, Finset.sdiff_self]
  · intro p ps h
    simp [prof_ids, truthy_id, h, List.filterMap_cons]

/-- Concrete profile carrying an identifier. -/
def profWithId : Profile :=
  ⟨some "com.corp.vpn", some "Corp VPN", false, true, ["VPN"]⟩

/-- Concrete profile with no identifier. -/
def profNoId : Profile :=
  ⟨none, some "Unnamed", false, true, []⟩

/-- Witness for C7: self-comparison of a concrete snapshot is empty, and a
profile with no identifier drops out of the identifier set. -/
theorem claim_c7_witness :
    snapshot_diff [profWithId] [profWithId] = (∅, ∅) ∧
    prof_ids [profNoId, profWithId] = prof_ids [profWithId] :=
  ⟨claim_c7.1 [profWithId], claim_c7.2.2 profNoId [profWithId] rfl⟩

/-- C8: when no listed login item bears the requested name,
remove_login_item returns the not-found failure, writes nothing to the
quarantine store and never invokes the osascript delete command, leaving
store and login items untouched. -/
theorem claim_c8 :
    ∀ (name : String) (env : LoginEnv) (store : List (String × LoginItem)),
    (∀ i ∈ env.items, i.name ≠ name) →
    remove_login_item name env store
      = ((false, "Login item not found: " ++ name), store, []) := by
  intro name env store h
  have hf : env.items.find? (fun i => i.name == name) = none := by
    rw [List.find?_eq_none]
    intro i hi
    simp [h i hi]
  simp [remove_login_item, hf]

/-- Concrete login-item environment listing a single item named Dropbox. -/
def loginEnvC8 : LoginEnv :=
  ⟨[⟨"Dropbox", some "/Applications/Dropbox.app", "Application", false⟩],
    true, "/app/src/quarantine/login_items", "20240101_120000", none, 0, ""⟩

/-- Witness for C8: removing the absent name Ghost fails with the not-found
message and performs no write and no delete. -/
theorem claim_c8_witness :
    remove_login_item "Ghost" loginEnvC8 []
      = ((false, "Login item not found: Ghost"), [], []) :=
  claim_c8 "Ghost" loginEnvC8 [] (by decide)

end MacWatchdog
